import Mathlib

/-!
Verification of the CloudWorx setup script (init-scripts/init.py).

The script is a sequential precondition pipeline: a Process Runner
(`runCmd`) executes shell commands and reports success as a boolean,
and four checks (`check_pwd`, `check_env`, `check_certs`, `check_nodejs`)
validate or repair the environment, terminating the process with a fixed
exit code on hard failure.

This file shallowly embeds the pure decision logic of that script:
 - file contents are `String`s / lists of lines (newline terminators
   dropped, since every use first strips or is newline-insensitive);
 - the filesystem facts a function reads (file present? content?) are
   explicit arguments;
 - `sys.exit(n)` is modelled as an `Option Nat` result (`some n` = the
   process terminated with code `n`, `none` = control flows on);
 - terminal output is modelled as a list of events.

Python string primitives used by the script (`str.strip`, `str.startswith`,
`in`, `str.split(sep, 1)`, `str.find`) are modelled on `List Char` so that
everything evaluates by kernel reduction.
-/

set_option autoImplicit false

namespace CloudWorx

/-- Python `str.strip()`: drop whitespace from both ends. -/
def pyStrip (s : String) : String :=
  ⟨((s.toList.dropWhile Char.isWhitespace).reverse.dropWhile Char.isWhitespace).reverse⟩

/-- Helper for `pyStartsWith` on character lists. -/
def charsStartWith : List Char → List Char → Bool
  | _, [] => true
  | [], _ :: _ => false
  | c :: cs, d :: ds => c == d && charsStartWith cs ds

/-- Python `s.startswith(t)`. -/
def pyStartsWith (s t : String) : Bool :=
  charsStartWith s.toList t.toList

/-- Python `"=" in line` (membership of the one-character separator). -/
def hasEq (s : String) : Bool :=
  s.toList.contains '='

/-- First component of Python `line.split("=", 1)`: characters before the
first `=` (the whole line if none). -/
def keyOf (s : String) : String :=
  ⟨s.toList.takeWhile (fun c => c ≠ '=')⟩

/-- Second component of Python `line.split("=", 1)`: characters after the
first `=`. -/
def valOf (s : String) : String :=
  ⟨(s.toList.dropWhile (fun c => c ≠ '=')).drop 1⟩

/-- Recognized keys `ENV_KEYS` from init.py (a `set` there; modelled as a list, membership
is all the script uses). -/
def ENV_KEYS : List String :=
  ["RECAPTCHA_SECRET_KEY", "ARGON_MEM_COST", "ARGON_TIME_COST", "ARGON_THREADS"]

/-- One diagnostic reported by `check_env` via `perr`, with the data the
message interpolates (the surrounding fixed text is presentation only;
keeping the payload structured avoids depending on Python set iteration
order in the unknown-key message). -/
inductive EnvErr where
  | invalidLine (line : String)
  | unknownKey (key : String)
  | emptyValue (key : String)
deriving DecidableEq, Repr

/-- The loop state of `check_env`'s validation loop: the `err` flag and the
diagnostics reported so far. -/
structure EnvState where
  err : Bool
  msgs : List EnvErr
deriving DecidableEq, Repr

/-- The body of `check_env`'s `for line in f` loop (init.py lines 264-279),
acting on one line (without its newline terminator; `startswith`, `in`,
`strip` and the `=`-split are all insensitive to the terminator). -/
def procLine (st : EnvState) (line : String) : EnvState :=
  if pyStartsWith line "#" = true ∨ pyStrip line = "" then st
  else if ¬ hasEq line = true then
    ⟨true, st.msgs ++ [EnvErr.invalidLine (pyStrip line)]⟩
  else if ¬ ENV_KEYS.contains (pyStrip (keyOf line)) = true then
    ⟨true, st.msgs ++ [EnvErr.unknownKey (keyOf line)]⟩
  else if pyStrip (valOf line) = "" then
    ⟨true, st.msgs ++ [EnvErr.emptyValue (keyOf line)]⟩
  else st

/-- Declarative per-line summary: the diagnostic (if any) that `check_env`
reports for a single line. -/
def lineMsg (line : String) : Option EnvErr :=
  if pyStartsWith line "#" = true ∨ pyStrip line = "" then none
  else if ¬ hasEq line = true then some (EnvErr.invalidLine (pyStrip line))
  else if ¬ ENV_KEYS.contains (pyStrip (keyOf line)) = true then
    some (EnvErr.unknownKey (keyOf line))
  else if pyStrip (valOf line) = "" then some (EnvErr.emptyValue (keyOf line))
  else none

/-- A line that `check_env` flags as malformed. -/
def badLine (line : String) : Bool :=
  (lineMsg line).isSome

/-- Python `env_content.find("\n")` as an index: position of the first
newline, if any. -/
def findChar : Char → List Char → Option Nat
  | _, [] => none
  | c, d :: ds => if d = c then some 0 else (findChar c ds).map (· + 1)

/-- Python `s.find(c)`: index of the first occurrence, `-1` if absent. -/
def pyFind (s : String) (c : Char) : Int :=
  match findChar c s.toList with
  | some n => (n : Int)
  | none => -1

/-- The content `check_env` writes to `.env` (init.py line 294):
`env_content[env_content.find("\n") + 1 :]`. When the template has no
newline, `find` is `-1`, the slice starts at `0`, and the whole template is
copied. -/
def synthEnv (tmpl : String) : String :=
  ⟨tmpl.toList.drop (pyFind tmpl '\n' + 1).toNat⟩

/-- Modelled from the spec's words (for refinement comparison only): "the
template's content with its first line removed" — everything after the
first newline, the empty string when there is no newline to end a first
line. -/
def specDropFirstLine (s : String) : String :=
  ⟨(s.toList.dropWhile (fun c => c ≠ '\n')).drop 1⟩

/-- Result of `check_env`: the diagnostics reported, the content written to
`.env` (if any), and the exit code (if the process terminated). -/
structure EnvOutcome where
  errors : List EnvErr
  written : Option String
  exitCode : Option Nat
deriving DecidableEq, Repr

/-- The check `check_env` (init.py lines 255-298). `envFile` is the `.env` content as
a list of lines when the file exists; `tmplFile` is the `.env.example`
content when that file exists. -/
def check_env (envFile : Option (List String)) (tmplFile : Option String) : EnvOutcome :=
  match envFile with
  | some lines =>
    let st := lines.foldl procLine ⟨false, []⟩
    ⟨st.msgs, none, if st.err = true then some 2 else none⟩
  | none =>
    match tmplFile with
    | none => ⟨[], none, some 2⟩
    | some tmpl => ⟨[], some (synthEnv tmpl), some 2⟩

/-- The step `procLine` acts as `lineMsg` says: a flagged line sets the error flag
and appends exactly one diagnostic; any other line leaves the state alone. -/
theorem procLine_eq_lineMsg (st : EnvState) (line : String) :
    procLine st line =
      match lineMsg line with
      | none => st
      | some e => ⟨true, st.msgs ++ [e]⟩ := by
  unfold procLine lineMsg
  split
  · rfl
  · split
    · rfl
    · split
      · rfl
      · split <;> rfl

/-- Closed form of `check_env`'s validation loop: the final error flag is
the disjunction over lines, and the diagnostics are one per flagged line,
in order. -/
theorem foldl_procLine (lines : List String) (e : Bool) (m : List EnvErr) :
    lines.foldl procLine ⟨e, m⟩ =
      ⟨e || lines.any badLine, m ++ lines.filterMap lineMsg⟩ := by
  induction lines generalizing e m with
  | nil => simp
  | cons l ls ih =>
    rw [List.foldl_cons, procLine_eq_lineMsg]
    cases h : lineMsg l with
    | none =>
      rw [ih]
      simp [badLine, h]
    | some er =>
      rw [ih]
      simp [badLine, h]

/-- Each diagnostic comes from a flagged line: counting diagnostics equals
counting flagged lines. -/
theorem length_filterMap_lineMsg (lines : List String) :
    (lines.filterMap lineMsg).length = (lines.filter badLine).length := by
  induction lines with
  | nil => rfl
  | cons l ls ih =>
    cases h : lineMsg l <;>
      simp [List.filterMap_cons, List.filter_cons, badLine, h, ih]

/-- Search `findChar` misses exactly when the character is absent. -/
theorem findChar_eq_none_iff (c : Char) (l : List Char) :
    findChar c l = none ↔ l.contains c = false := by
  induction l with
  | nil => simp [findChar]
  | cons d ds ih =>
    by_cases h : d = c
    · simp [findChar, h, List.contains_cons]
    · simp [findChar, h, List.contains_cons, ih, beq_eq_false_iff_ne,
        Option.map_eq_none']
      intro _ hcd
      exact h hcd.symm

/-- Dropping past the first occurrence of `c` agrees with dropping the
prefix of non-`c` characters plus the `c` itself. -/
theorem drop_succ_findChar (c : Char) (l : List Char) (n : Nat)
    (h : findChar c l = some n) :
    l.drop (n + 1) = (l.dropWhile (fun x => x ≠ c)).drop 1 := by
  induction l generalizing n with
  | nil => simp [findChar] at h
  | cons d ds ih =>
    by_cases hd : d = c
    · rw [findChar] at h
      rw [if_pos hd] at h
      cases h
      simp [List.dropWhile_cons, hd]
    · rw [findChar] at h
      rw [if_neg hd] at h
      rcases Option.map_eq_some'.mp h with ⟨m, hm, hmn⟩
      subst hmn
      simp [List.dropWhile_cons, hd, ih m hm]

/-- C3: for an existing `.env`, `check_env` reports one diagnostic per
malformed non-comment, non-blank line — all of them, in file order, never
stopping early — and exits with code 2 when any exists; a file all of whose
non-comment, non-blank lines are recognized keys with non-empty values is
accepted with no termination and no diagnostics. -/
theorem check_env_existing_validation (lines : List String) (tmpl : Option String) :
    (lines.any badLine = true →
      (check_env (some lines) tmpl).exitCode = some 2 ∧
      (check_env (some lines) tmpl).errors = lines.filterMap lineMsg ∧
      (check_env (some lines) tmpl).errors.length = (lines.filter badLine).length) ∧
    ((∀ l ∈ lines, badLine l = false) →
      (check_env (some lines) tmpl).exitCode = none ∧
      (check_env (some lines) tmpl).errors = []) := by
  have hf := foldl_procLine lines false []
  constructor
  · intro h
    refine ⟨?_, ?_, ?_⟩
    · simp [check_env, hf, h]
    · simp [check_env, hf]
    · simp [check_env, hf, length_filterMap_lineMsg]
  · intro hall
    have hany : lines.any badLine = false := by
      rw [List.any_eq_false]
      intro l hl
      simp [hall l hl]
    have hnil : lines.filterMap lineMsg = [] := by
      rw [List.filterMap_eq_nil_iff]
      intro l hl
      have := hall l hl
      rw [badLine] at this
      exact Option.not_isSome_iff_eq_none.mp (by simp [this])
    constructor
    · simp [check_env, hf, hany]
    · simp [check_env, hf, hnil]

/-- Witness for `check_env_existing_validation`: a file with one valid line
followed by one separator-free line exits with code 2 after reporting
exactly that one line; the file with only the valid line is accepted. -/
theorem check_env_existing_validation_witness :
    ((check_env (some ["ARGON_MEM_COST=65536", "oops-no-separator"]) none).exitCode = some 2 ∧
      (check_env (some ["ARGON_MEM_COST=65536", "oops-no-separator"]) none).errors
        = ["ARGON_MEM_COST=65536", "oops-no-separator"].filterMap lineMsg ∧
      (check_env (some ["ARGON_MEM_COST=65536", "oops-no-separator"]) none).errors.length
        = (["ARGON_MEM_COST=65536", "oops-no-separator"].filter badLine).length) ∧
    ((check_env (some ["ARGON_MEM_COST=65536"]) none).exitCode = none ∧
      (check_env (some ["ARGON_MEM_COST=65536"]) none).errors = []) :=
  ⟨(check_env_existing_validation ["ARGON_MEM_COST=65536", "oops-no-separator"] none).1
      (by decide),
   (check_env_existing_validation ["ARGON_MEM_COST=65536"] none).2 (by decide)⟩

/-- C7 counterexample: the file with lines `ARGON_THREADS=1` and
`ARGON_THREADS=2` repeats the trimmed key `ARGON_THREADS`, yet `check_env`
does not terminate with exit code 2 (it accepts the file). -/
theorem check_env_duplicate_keys_cex :
    pyStrip (keyOf "ARGON_THREADS=1") = pyStrip (keyOf "ARGON_THREADS=2") ∧
    ¬ (check_env (some ["ARGON_THREADS=1", "ARGON_THREADS=2"]) none).exitCode = some 2 := by
  exact ⟨rfl, by decide⟩

/-- C7 amended: `check_env` performs no duplicate-key detection — every
file whose lines are each individually valid (recognized key, separator
present, non-empty value) is accepted without termination, even when a
whitespace-trimmed key occurs on more than one line. -/
theorem check_env_no_duplicate_detection (lines : List String) (tmpl : Option String)
    (h : ∀ l ∈ lines, badLine l = false) :
    (check_env (some lines) tmpl).exitCode = none := by
  have hany : lines.any badLine = false := by
    rw [List.any_eq_false]
    intro l hl
    simp [h l hl]
  have hf := foldl_procLine lines false []
  simp [check_env, hf, hany]

/-- Witness for `check_env_no_duplicate_detection`: the duplicate-key file
of the counterexample is accepted. -/
theorem check_env_no_duplicate_detection_witness :
    (check_env (some ["ARGON_THREADS=1", "ARGON_THREADS=2"]) none).exitCode = none :=
  check_env_no_duplicate_detection ["ARGON_THREADS=1", "ARGON_THREADS=2"] none (by decide)

/-- C10: a `#` preceded by whitespace does not make a comment — such a line
(raw text not starting with `#`, stripped text starting with `#`) is
validated as content, and when it has no `=` separator it is reported as an
invalid line and any file containing it exits with code 2. -/
theorem check_env_comment_hash_first_char (line : String) (pre suf : List String)
    (tmpl : Option String)
    (hraw : pyStartsWith line "#" = false)
    (hstrip : pyStartsWith (pyStrip line) "#" = true)
    (hneq : hasEq line = false) :
    lineMsg line = some (EnvErr.invalidLine (pyStrip line)) ∧
    (check_env (some (pre ++ line :: suf)) tmpl).exitCode = some 2 := by
  have hne : ¬ pyStrip line = "" := by
    intro h
    rw [h] at hstrip
    exact absurd hstrip (by decide)
  have hmsg : lineMsg line = some (EnvErr.invalidLine (pyStrip line)) := by
    rw [lineMsg, if_neg, if_pos]
    · simp [hneq]
    · rintro (h | h)
      · rw [hraw] at h
        exact Bool.noConfusion h
      · exact hne h
  have hbad : badLine line = true := by simp [badLine, hmsg]
  have hany : (pre ++ line :: suf).any badLine = true := by
    rw [List.any_eq_true]
    exact ⟨line, by simp, hbad⟩
  have hf := foldl_procLine (pre ++ line :: suf) false []
  exact ⟨hmsg, by simp [check_env, hf, hany]⟩

/-- Witness for `check_env_comment_hash_first_char`: the line
`" # comment"` (leading space before `#`) is flagged invalid and the file
holding it (after a valid line) exits with code 2. -/
theorem check_env_comment_hash_first_char_witness :
    lineMsg " # comment" = some (EnvErr.invalidLine (pyStrip " # comment")) ∧
    (check_env (some (["ARGON_MEM_COST=65536"] ++ " # comment" :: [])) none).exitCode
      = some 2 :=
  check_env_comment_hash_first_char " # comment" ["ARGON_MEM_COST=65536"] [] none
    (by decide) (by decide) (by decide)

/-- C4 counterexample: a template consisting of a single line with no
newline. `check_env` writes the whole template unchanged (the slice index
`find + 1` is `0` when `find` returns `-1`), whereas the template's content
with its first line removed is empty. The exit code is still 2. -/
theorem check_env_template_single_line_cex :
    (check_env none (some "ARGON_THREADS=4")).written = some "ARGON_THREADS=4" ∧
    specDropFirstLine "ARGON_THREADS=4" = "" ∧
    ¬ (check_env none (some "ARGON_THREADS=4")).written
        = some (specDropFirstLine "ARGON_THREADS=4") := by
  exact ⟨rfl, rfl, by decide⟩

/-- C4 amended: with `.env` absent and `.env.example` present, `check_env`
writes the template's content with its first line removed whenever the
template contains at least one newline; a newline-free template is copied
whole (not emptied). In both cases the process then terminates with exit
code 2. -/
theorem check_env_template_synthesis (tmpl : String) :
    (tmpl.toList.contains '\n' = true →
      (check_env none (some tmpl)).written = some (specDropFirstLine tmpl)) ∧
    (tmpl.toList.contains '\n' = false →
      (check_env none (some tmpl)).written = some tmpl) ∧
    (check_env none (some tmpl)).exitCode = some 2 := by
  refine ⟨?_, ?_, rfl⟩
  · intro h
    have hsome : findChar '\n' tmpl.toList ≠ none := by
      intro hn
      rw [findChar_eq_none_iff] at hn
      rw [h] at hn
      exact Bool.noConfusion hn
    rcases Option.ne_none_iff_exists'.mp hsome with ⟨n, hn⟩
    have hdrop := drop_succ_findChar '\n' tmpl.toList n hn
    have htn : (pyFind tmpl '\n' + 1).toNat = n + 1 := by
      simp only [pyFind, hn]
      omega
    simp only [check_env, synthEnv, specDropFirstLine, htn, hdrop]
  · intro h
    have hnone : findChar '\n' tmpl.toList = none := (findChar_eq_none_iff '\n' _).mpr h
    have htn : (pyFind tmpl '\n' + 1).toNat = 0 := by
      simp only [pyFind, hnone]
      rfl
    simp only [check_env, synthEnv, htn, List.drop_zero]
    rfl

/-- Witness for `check_env_template_synthesis`: the spec's own scenario
`"# header\nARGON_MEM_COST=65536\n"` yields `.env` content
`"ARGON_MEM_COST=65536\n"` with exit code 2, and a newline-free template is
copied whole. -/
theorem check_env_template_synthesis_witness :
    (check_env none (some "# header\nARGON_MEM_COST=65536\n")).written
      = some (specDropFirstLine "# header\nARGON_MEM_COST=65536\n") ∧
    specDropFirstLine "# header\nARGON_MEM_COST=65536\n" = "ARGON_MEM_COST=65536\n" ∧
    (check_env none (some "RECAPTCHA_SECRET_KEY=x")).written
      = some "RECAPTCHA_SECRET_KEY=x" ∧
    (check_env none (some "# header\nARGON_MEM_COST=65536\n")).exitCode = some 2 :=
  ⟨(check_env_template_synthesis "# header\nARGON_MEM_COST=65536\n").1 (by decide),
   by decide,
   (check_env_template_synthesis "RECAPTCHA_SECRET_KEY=x").2.1 (by decide),
   (check_env_template_synthesis "# header\nARGON_MEM_COST=65536\n").2.2⟩

/-- One terminal event emitted by `runCmd`:
 - `newline` is the bare `print()` that closes a run of progress lines;
 - `outLine s cr` is `_print(f" | {s}", ...)` with `cr = true` when it ends
   in a carriage return (`end="\r"`, progress style) and `cr = false` for a
   normal line ending;
 - `raw s` is the bare `print(e.__class__.__name__, e)` on a spawn fault;
 - `errLine s` is a `perr` diagnostic. -/
inductive Event where
  | newline
  | outLine (s : String) (cr : Bool)
  | raw (s : String)
  | errLine (s : String)
deriving DecidableEq, Repr

/-- Outcome of `subprocess.Popen` plus stream collection: either the spawn
raised (fault classification name and message), or the process ran and
yielded an exit status and its two output streams as lines. -/
inductive SpawnResult where
  | fault (name msg : String)
  | ok (exitCode : Int) (stdoutLines stderrLines : List String)

/-- State and output of one of `runCmd`'s stream loops: the events
emitted, the final `starts_w_progress` flag, and the final `printed` flag
(the stderr fallback loop never reads or sets `printed`; its value is
simply unused there). -/
structure RenderOut where
  evs : List Event
  swp : Bool
  printed : Bool
deriving DecidableEq, Repr

/-- The stream loop of `runCmd` (init.py lines 171-184 for stdout, with
the identical structure at lines 189-201 for stderr): strip each line, skip
blanks, track `starts_w_progress`, emit a bare newline when a non-progress
line follows progress lines, and render progress lines with a carriage
return. -/
def renderLines (swp printed : Bool) : List String → RenderOut
  | [] => ⟨[], swp, printed⟩
  | l :: rest =>
    if pyStrip l = "" then renderLines swp printed rest
    else if pyStartsWith (pyStrip l) "Progress" = true then
      ⟨Event.outLine (pyStrip l) true :: (renderLines true true rest).evs,
       (renderLines true true rest).swp, (renderLines true true rest).printed⟩
    else if swp = true then
      ⟨Event.newline :: Event.outLine (pyStrip l) false :: (renderLines false true rest).evs,
       (renderLines false true rest).swp, (renderLines false true rest).printed⟩
    else
      ⟨Event.outLine (pyStrip l) false :: (renderLines false true rest).evs,
       (renderLines false true rest).swp, (renderLines false true rest).printed⟩

/-- The Process Runner (init.py lines 153-211; named runCmd here since
Lean reserves the original name). A spawn fault is
caught: the function always returns a boolean (the fault never escapes),
after printing the fault's class name and message and a `perr` diagnostic.
On a spawned process it returns whether the exit status is zero; with
capture on it renders stdout, falling back to stderr when stdout had no
non-blank line (the `starts_w_progress` flag carries over into the
fallback loop). -/
def runCmd (cmd : String) (output : Bool) (res : SpawnResult) : Bool × List Event :=
  match res with
  | SpawnResult.fault name msg =>
    (false,
     [Event.raw (name ++ " " ++ msg),
      Event.errLine ("Failed to run command `" ++ cmd ++ "`: " ++ msg)])
  | SpawnResult.ok code outLines errLines =>
    if output = true then
      (code == 0,
       (renderLines false false outLines).evs ++
         (if (renderLines false false outLines).printed = true then []
          else (renderLines (renderLines false false outLines).swp
                  (renderLines false false outLines).printed errLines).evs))
    else (code == 0, [])

/-- Does the event list start with the given block? -/
def blockStart : List Event → List Event → Bool
  | _, [] => true
  | [], _ :: _ => false
  | e :: es, b :: bs => if e = b then blockStart es bs else false

/-- Does the given block occur contiguously somewhere in the event list? -/
def containsBlock : List Event → List Event → Bool
  | [], block => blockStart [] block
  | e :: rest, block => blockStart (e :: rest) block || containsBlock rest block

/-- A list starts with itself (followed by anything). -/
theorem blockStart_append (block r : List Event) :
    blockStart (block ++ r) block = true := by
  induction block with
  | nil => simp [blockStart]
  | cons b bs ih => simp [blockStart, ih]

/-- Starting with a block implies containing it. -/
theorem containsBlock_of_blockStart (evs block : List Event)
    (h : blockStart evs block = true) : containsBlock evs block = true := by
  cases evs with
  | nil => exact h
  | cons e rest => simp [containsBlock, h]

/-- A block surrounded by anything is contained. -/
theorem containsBlock_of_append (l block r : List Event) :
    containsBlock (l ++ (block ++ r)) block = true := by
  induction l with
  | nil => exact containsBlock_of_blockStart _ _ (blockStart_append block r)
  | cons x xs ih =>
    simp only [List.cons_append, containsBlock, List.append_eq]
    rw [ih]
    simp

/-- The stream loop processes a concatenation by processing the pieces in
sequence, threading the `starts_w_progress` and `printed` flags. -/
theorem renderLines_append (xs ys : List String) (swp printed : Bool) :
    renderLines swp printed (xs ++ ys) =
      ⟨(renderLines swp printed xs).evs
         ++ (renderLines (renderLines swp printed xs).swp
              (renderLines swp printed xs).printed ys).evs,
       (renderLines (renderLines swp printed xs).swp
          (renderLines swp printed xs).printed ys).swp,
       (renderLines (renderLines swp printed xs).swp
          (renderLines swp printed xs).printed ys).printed⟩ := by
  induction xs generalizing swp printed with
  | nil => simp [renderLines]
  | cons x xs ih =>
    by_cases h1 : pyStrip x = ""
    · simp only [List.cons_append, renderLines, if_pos h1]
      exact ih swp printed
    · by_cases h2 : pyStartsWith (pyStrip x) "Progress" = true
      · simp only [List.cons_append, renderLines, if_neg h1, if_pos h2, List.append_eq]
        rw [ih true true]
      · by_cases h3 : swp = true
        · simp only [List.cons_append, renderLines, if_neg h1, if_neg h2, if_pos h3,
            List.append_eq]
          rw [ih false true]
        · simp only [List.cons_append, renderLines, if_neg h1, if_neg h2, if_neg h3,
            List.append_eq]
          rw [ih false true]

/-- Blank-only input renders nothing and leaves both flags untouched. -/
theorem renderLines_all_blank (out : List String) (swp printed : Bool)
    (h : ∀ x ∈ out, pyStrip x = "") :
    renderLines swp printed out = ⟨[], swp, printed⟩ := by
  induction out with
  | nil => rfl
  | cons x xs ih =>
    have hx : pyStrip x = "" := h x (by simp)
    simp only [renderLines, if_pos hx]
    exact ih fun y hy => h y (by simp [hy])

/-- Wherever a non-blank progress line is immediately followed by a
non-blank non-progress line, the loop emits the progress line (carriage
return), then a bare newline, then the non-progress line — whatever the
initial flags. -/
theorem renderLines_progress_block (pre suf : List String) (p q : String)
    (swp printed : Bool)
    (hp : ¬ pyStrip p = "") (hpp : pyStartsWith (pyStrip p) "Progress" = true)
    (hq : ¬ pyStrip q = "") (hqp : pyStartsWith (pyStrip q) "Progress" = false) :
    ∃ l r, (renderLines swp printed (pre ++ p :: q :: suf)).evs =
      l ++ ([Event.outLine (pyStrip p) true, Event.newline,
             Event.outLine (pyStrip q) false] ++ r) := by
  refine ⟨(renderLines swp printed pre).evs,
    (renderLines false true suf).evs, ?_⟩
  rw [renderLines_append pre (p :: q :: suf) swp printed]
  have hqp' : ¬ pyStartsWith (pyStrip q) "Progress" = true := by
    rw [hqp]
    exact Bool.noConfusion
  simp [renderLines, hp, hpp, hq, hqp']

/-- C8: in `runCmd`'s captured rendering, a line starting with `Progress`
immediately followed by a non-progress (non-blank) line always gets a bare
newline emitted between the progress rendering and the non-progress
rendering — in the stdout pass, and likewise in the stderr fallback pass
(taken when stdout produced no printable line). -/
theorem runCmd_progress_break (cmd : String) (code : Int)
    (pre suf errs outs : List String) (p q : String)
    (hp : ¬ pyStrip p = "") (hpp : pyStartsWith (pyStrip p) "Progress" = true)
    (hq : ¬ pyStrip q = "") (hqp : pyStartsWith (pyStrip q) "Progress" = false)
    (houts : ∀ x ∈ outs, pyStrip x = "") :
    containsBlock
      (runCmd cmd true (SpawnResult.ok code (pre ++ p :: q :: suf) errs)).2
      [Event.outLine (pyStrip p) true, Event.newline,
       Event.outLine (pyStrip q) false] = true ∧
    containsBlock
      (runCmd cmd true (SpawnResult.ok code outs (pre ++ p :: q :: suf))).2
      [Event.outLine (pyStrip p) true, Event.newline,
       Event.outLine (pyStrip q) false] = true := by
  constructor
  · obtain ⟨l, r, he⟩ :=
      renderLines_progress_block pre suf p q false false hp hpp hq hqp
    simp only [runCmd, if_pos rfl, he]
    have hassoc :
        (l ++ ([Event.outLine (pyStrip p) true, Event.newline,
          Event.outLine (pyStrip q) false] ++ r)) ++
          (if (renderLines false false (pre ++ p :: q :: suf)).printed = true then []
           else (renderLines (renderLines false false (pre ++ p :: q :: suf)).swp
                   (renderLines false false (pre ++ p :: q :: suf)).printed errs).evs) =
        l ++ ([Event.outLine (pyStrip p) true, Event.newline,
          Event.outLine (pyStrip q) false] ++
          (r ++ (if (renderLines false false (pre ++ p :: q :: suf)).printed = true then []
           else (renderLines (renderLines false false (pre ++ p :: q :: suf)).swp
                   (renderLines false false (pre ++ p :: q :: suf)).printed errs).evs))) := by
      simp
    rw [hassoc]
    exact containsBlock_of_append _ _ _
  · have hout := renderLines_all_blank outs false false houts
    obtain ⟨l, r, he⟩ :=
      renderLines_progress_block pre suf p q false false hp hpp hq hqp
    have h2 : (runCmd cmd true (SpawnResult.ok code outs (pre ++ p :: q :: suf))).2
        = l ++ ([Event.outLine (pyStrip p) true, Event.newline,
            Event.outLine (pyStrip q) false] ++ r) := by
      simp [runCmd, hout, he]
    rw [h2]
    exact containsBlock_of_append _ _ _

/-- Witness for `runCmd_progress_break`: with stdout
`["Progress 50%", "Done"]`, and with blank stdout and that stderr, the
rendered events contain progress line, bare newline, then the plain line. -/
theorem runCmd_progress_break_witness :
    containsBlock
      (runCmd "npm install" true
        (SpawnResult.ok 0 ([] ++ "Progress 50%" :: "Done" :: []) [])).2
      [Event.outLine (pyStrip "Progress 50%") true, Event.newline,
       Event.outLine (pyStrip "Done") false] = true ∧
    containsBlock
      (runCmd "npm install" true
        (SpawnResult.ok 0 ["", "   "] ([] ++ "Progress 50%" :: "Done" :: []))).2
      [Event.outLine (pyStrip "Progress 50%") true, Event.newline,
       Event.outLine (pyStrip "Done") false] = true :=
  runCmd_progress_break "npm install" 0 [] [] [] ["", "   "] "Progress 50%" "Done"
    (by decide) (by decide) (by decide) (by decide) (by decide)

/-- C1: when the spawn succeeds, `runCmd` reports success exactly when the
child's exit status is zero, in both the capture-enabled and
capture-disabled modes. -/
theorem runCmd_true_iff_exit_zero (cmd : String) (output : Bool) (code : Int)
    (outLines errLines : List String) :
    (runCmd cmd output (SpawnResult.ok code outLines errLines)).1 = true ↔ code = 0 := by
  cases output <;> simp [runCmd]

/-- Witness for `runCmd_true_iff_exit_zero`: exit status 0 gives `true`
(capture on), exit status 1 gives `false` (capture off). -/
theorem runCmd_true_iff_exit_zero_witness :
    (runCmd "mkcert -install" true (SpawnResult.ok 0 [] [])).1 = true ∧
    ¬ (runCmd "npm install" false (SpawnResult.ok 1 [] [])).1 = true :=
  ⟨(runCmd_true_iff_exit_zero "mkcert -install" true 0 [] []).mpr rfl,
   fun h => absurd ((runCmd_true_iff_exit_zero "npm install" false 1 [] []).mp h)
     (by decide)⟩

/-- C2: when the spawn itself faults, `runCmd` returns `false` (never
letting the fault escape — in this embedding it is a total function on
`SpawnResult`), after printing the fault's classification and message and
a `perr` diagnostic naming the command; this holds in both output modes. -/
theorem runCmd_spawn_fault_contained (cmd name msg : String) (output : Bool) :
    (runCmd cmd output (SpawnResult.fault name msg)).1 = false ∧
    (runCmd cmd output (SpawnResult.fault name msg)).2 =
      [Event.raw (name ++ " " ++ msg),
       Event.errLine ("Failed to run command `" ++ cmd ++ "`: " ++ msg)] :=
  ⟨rfl, rfl⟩

/-- The mkcert generation command (init.py line 332): one command that
names and regenerates both certificate artifacts together. -/
def certGenCmd : String :=
  "mkcert -key-file certs/localhost-key.pem -cert-file certs/localhost.pem localhost"

/-- The presence test `both_files_exist` of `check_certs` (init.py line
329): file existence only — `Path(...).exists()` — never content. A file
is modelled as `Option String` (its content when it exists). -/
def both_files_exist (keyFile certFile : Option String) : Bool :=
  keyFile.isSome && certFile.isSome

/-- Modelled from the spec's words (refinement comparison only): "both must
exist and be non-empty for the check to pass". -/
def specNonEmptyFile : Option String → Bool
  | some s => decide (¬ s = "")
  | none => false

/-- Modelled from the spec's words (refinement comparison only): both
certificate artifacts exist with non-empty content. -/
def specBothNonEmpty (keyFile certFile : Option String) : Bool :=
  specNonEmptyFile keyFile && specNonEmptyFile certFile

/-- The generation step of `check_certs` (init.py lines 329-336): the
generation commands invoked (as a list) and the exit code, given the two
artifact files and whether the generation command succeeds. -/
def checkCertsGen (keyFile certFile : Option String) (genOk : Bool) :
    List String × Option Nat :=
  if both_files_exist keyFile certFile = true then ([], none)
  else if genOk = true then ([certGenCmd], none)
  else ([certGenCmd], some 3)

/-- C5 counterexample: with the key file present but empty and the
certificate file present, `check_certs` invokes no generation command and
passes, although the artifacts are not both non-empty. -/
theorem check_certs_empty_artifact_cex :
    checkCertsGen (some "") (some "certdata") true = ([], none) ∧
    specBothNonEmpty (some "") (some "certdata") = false := by
  exact ⟨rfl, rfl⟩

/-- C5 amended: `check_certs` skips generation exactly when both artifact
files exist — existence only, content (emptiness) is never examined; when
either is missing it invokes exactly one generation command, `certGenCmd`,
which regenerates both files together (its failure exits with code 3). -/
theorem check_certs_existence_only (keyFile certFile : Option String) (genOk : Bool) :
    ((checkCertsGen keyFile certFile genOk).1 = [] ↔
      both_files_exist keyFile certFile = true) ∧
    (both_files_exist keyFile certFile = true →
      checkCertsGen keyFile certFile genOk = ([], none)) ∧
    (both_files_exist keyFile certFile = false →
      (checkCertsGen keyFile certFile genOk).1 = [certGenCmd] ∧
      (genOk = false → (checkCertsGen keyFile certFile genOk).2 = some 3)) := by
  by_cases h : both_files_exist keyFile certFile = true
  · simp [checkCertsGen, h]
  · have h' : both_files_exist keyFile certFile = false := by
      cases hb : both_files_exist keyFile certFile
      · rfl
      · exact absurd hb h
    by_cases g : genOk = true
    · simp [checkCertsGen, h', g]
    · have g' : genOk = false := by
        cases hg : genOk
        · rfl
        · exact absurd hg g
      simp [checkCertsGen, h', g']

/-- Witness for `check_certs_existence_only`: both files present (even with
empty key content) means no generation; certificate file missing means the
one combined generation command runs, and its failure exits with code 3. -/
theorem check_certs_existence_only_witness :
    checkCertsGen (some "") (some "certdata") false = ([], none) ∧
    (checkCertsGen (some "keydata") none false).1 = [certGenCmd] ∧
    (checkCertsGen (some "keydata") none false).2 = some 3 :=
  ⟨(check_certs_existence_only (some "") (some "certdata") false).2.1 rfl,
   ((check_certs_existence_only (some "keydata") none false).2.2 rfl).1,
   ((check_certs_existence_only (some "keydata") none false).2.2 rfl).2 rfl⟩

/-- The ordered package-manager table `install_cmds` of `install_mkcert`
(init.py lines 219-226; a Python dict, whose iteration order is its fixed
insertion order). -/
def install_cmds : List (String × String) :=
  [("brew", "brew install mkcert"),
   ("choco", "choco install mkcert -y"),
   ("scoop", "scoop install mkcert"),
   ("apt", "sudo apt update && sudo apt install -y mkcert"),
   ("dnf", "sudo dnf install -y mkcert"),
   ("pacman", "sudo pacman -S mkcert")]

/-- The probe loop of `install_mkcert` (init.py lines 228-233): for each
manager in order, when it is on the path (`which`), run its install
command; stop at the first success. `present` models `which pm` being
non-null, `runOk` models the runner call on cmd succeeding. -/
def installLoop (present runOk : String → Bool) : List (String × String) → Bool
  | [] => false
  | pc :: rest =>
    if present pc.1 = true then
      if runOk pc.2 = true then true else installLoop present runOk rest
    else installLoop present runOk rest

/-- The installer `install_mkcert` (init.py lines 214-237): `true` exactly
when some probed manager's install command succeeded. -/
def install_mkcert (present runOk : String → Bool) : Bool :=
  installLoop present runOk install_cmds

/-- The mkcert-provisioning step of `check_certs` (init.py lines 311-320):
when the tool is absent, a declined prompt exits with code 3; an accepted
prompt runs `install_mkcert`, whose failure exits with code 3. -/
def checkCertsInstall (mkcertOnPath accepted : Bool)
    (present runOk : String → Bool) : Option Nat :=
  if mkcertOnPath = true then none
  else if ¬ accepted = true then some 3
  else if install_mkcert present runOk = true then none
  else some 3

/-- The probe loop succeeds exactly when some manager is present with a
succeeding install command. -/
theorem installLoop_eq_any (present runOk : String → Bool)
    (l : List (String × String)) :
    installLoop present runOk l = l.any fun pc => present pc.1 && runOk pc.2 := by
  induction l with
  | nil => rfl
  | cons pc rest ih =>
    by_cases hp : present pc.1 = true
    · by_cases hr : runOk pc.2 = true
      · simp [installLoop, hp, hr]
      · have hr' : runOk pc.2 = false := by
          cases h : runOk pc.2
          · rfl
          · exact absurd h hr
        simp [installLoop, hp, hr', ih]
    · have hp' : present pc.1 = false := by
        cases h : present pc.1
        · rfl
        · exact absurd h hp
      simp [installLoop, hp', ih]

/-- C6 counterexample: with `brew` and `apt` on the path and only the apt
install command succeeding, the first-found manager is `brew` and its
install fails, yet `install_mkcert` reports success (it fell through to
`apt`) and `check_certs` does not exit with code 3. -/
theorem install_mkcert_fallback_cex :
    install_cmds.find?
        (fun pc => (pc.1 == "brew") || (pc.1 == "apt"))
      = some ("brew", "brew install mkcert") ∧
    ((fun c => c == "sudo apt update && sudo apt install -y mkcert")
      "brew install mkcert") = false ∧
    install_mkcert (fun s => (s == "brew") || (s == "apt"))
        (fun c => c == "sudo apt update && sudo apt install -y mkcert") = true ∧
    checkCertsInstall false true (fun s => (s == "brew") || (s == "apt"))
        (fun c => c == "sudo apt update && sudo apt install -y mkcert") = none := by
  refine ⟨rfl, rfl, rfl, rfl⟩

/-- C6 amended: `install_mkcert` probes the fixed ordered manager list and
tries the install command of every manager found on the path, in order,
succeeding as soon as one install command succeeds; it reports failure
exactly when no present manager's command succeeds (in particular when no
manager is found at all), and `check_certs` then exits with code 3. -/
theorem install_mkcert_tries_each_found (present runOk : String → Bool) :
    install_mkcert present runOk
      = install_cmds.any (fun pc => present pc.1 && runOk pc.2) ∧
    (install_mkcert present runOk = false →
      checkCertsInstall false true present runOk = some 3) ∧
    ((∀ pc ∈ install_cmds, present pc.1 = false) →
      install_mkcert present runOk = false) := by
  have h := installLoop_eq_any present runOk install_cmds
  refine ⟨h, ?_, ?_⟩
  · intro hf
    simp [checkCertsInstall, hf]
  · intro hall
    rw [install_mkcert, h, List.any_eq_false]
    intro pc hpc
    simp [hall pc hpc]

/-- Witness for `install_mkcert_tries_each_found`: with no manager on the
path the install fails and the provisioning step exits with code 3. -/
theorem install_mkcert_tries_each_found_witness :
    install_mkcert (fun _ => false) (fun _ => true) = false ∧
    checkCertsInstall false true (fun _ => false) (fun _ => true) = some 3 := by
  have h1 := (install_mkcert_tries_each_found (fun _ => false) (fun _ => true)).2.2
    (by intro pc _; rfl)
  exact ⟨h1, (install_mkcert_tries_each_found (fun _ => false) (fun _ => true)).2.1 h1⟩

/-- The directory check `check_pwd` (init.py lines 240-252): given the
project root and the current working directory (paths modelled as
strings, `os.chdir` to the script-derived root modelled as always
succeeding), it returns the resulting working directory and — having no
`sys.exit` call at all — never an exit code. -/
def check_pwd (root cwd : String) : String × Option Nat :=
  if ¬ root = cwd then (root, none) else (cwd, none)

/-- C9: `check_pwd` never terminates the process (no exit code for any
starting directory — it is a total function with no exit path), ends in
the root directory whatever the start, and leaves the directory unchanged
when it already is the root. -/
theorem check_pwd_self_healing (root cwd : String) :
    (check_pwd root cwd).2 = none ∧
    (check_pwd root cwd).1 = root ∧
    (cwd = root → (check_pwd root cwd).1 = cwd) := by
  by_cases h : root = cwd
  · subst h
    simp [check_pwd]
  · have : (check_pwd root cwd) = (root, none) := by
      simp [check_pwd, h]
    refine ⟨by simp [this], by simp [this], ?_⟩
    intro hc
    exact absurd hc.symm h

/-- Witness for `check_pwd_self_healing`: from a differing directory the
check moves to the root without exiting; from the root itself it stays
put. -/
theorem check_pwd_self_healing_witness :
    (check_pwd "/repo/CloudWorx-WApp" "/tmp").2 = none ∧
    (check_pwd "/repo/CloudWorx-WApp" "/tmp").1 = "/repo/CloudWorx-WApp" ∧
    (check_pwd "/repo/CloudWorx-WApp" "/repo/CloudWorx-WApp").1
      = "/repo/CloudWorx-WApp" :=
  ⟨(check_pwd_self_healing "/repo/CloudWorx-WApp" "/tmp").1,
   (check_pwd_self_healing "/repo/CloudWorx-WApp" "/tmp").2.1,
   (check_pwd_self_healing "/repo/CloudWorx-WApp" "/repo/CloudWorx-WApp").2.2 rfl⟩

end CloudWorx
